import Mathlib

/-!
Verification development for the mpesa-b2c reconciliation service.

The embedding below translates the Go sources into Lean:
* `updateAccessToken` and the backoff bookkeeping of `updateAccessTokenWorker`
  (internal/b2c/v1/worker.go, credential lifecycle manager);
* the `Payment` record and `PaymentProto` translation (internal/b2c/v1/model.go);
* the inbound-callback handler `fromSaf` of the b2c gateway.

Machine integers: Go `time.Duration` is a signed 64-bit integer of
nanoseconds; its overflow is modelled explicitly with `wrap64`.  Numeric
payload fields (amounts, balances) are only ever copied by the code under
study, never computed with, so they are modelled as rationals.  Audit
timestamps managed by the ORM (autoCreateTime/autoUpdateTime) and the
RFC3339 rendering of the creation date are touched by no claim and are
omitted from the record model.
-/

set_option autoImplicit false
set_option maxRecDepth 4000

namespace MpesaB2C

/-! ## Credential lifecycle manager: token refresh (worker.go, updateAccessToken) -/

/-- The provider's reply to the token-refresh GET, as `updateAccessToken`
observes it: a transport error (other than `io.EOF`, which the code
ignores), the HTTP status, the content-type header, and the decoded JSON
object.  `body = none` models a JSON decode error other than `io.EOF`;
`body = some kvs` models the decoded `map[string]interface{}` as an
association list whose values are already rendered by `fmt.Sprint`. -/
structure TokenResponse where
  transportErr : Bool
  statusCode : Nat
  contentType : String
  body : Option (List (String × String))
  deriving Repr, DecidableEq

/-- ASCII-wise lower-casing, `strings.ToLower` on the headers in play. -/
def strLower (s : String) : String :=
  String.mk (s.data.map Char.toLower)

/-- Whether `pat` occurs as a contiguous run inside the character list. -/
def hasSubstring (pat : List Char) : List Char → Bool
  | [] => pat.isEmpty
  | c :: rest => pat.isPrefixOf (c :: rest) || hasSubstring pat rest

/-- `strings.Contains`. -/
def strContains (s pat : String) : Bool :=
  hasSubstring pat.data s.data

/-- `strings.Contains(strings.ToLower ct, "application/json")`. -/
def containsJson (ct : String) : Bool :=
  strContains (strLower ct) "application/json"

/-- `fmt.Sprint` applied to a map index: a missing key yields the Go `nil`
interface, which `fmt.Sprint` renders as the literal string `<nil>`. -/
def goSprintField : Option String → String
  | some s => s
  | none => "<nil>"

/-- First value stored under key `k` in the decoded JSON object. -/
def lookupField (kvs : List (String × String)) (k : String) : Option String :=
  (kvs.find? (fun p => p.1 == k)).map (fun p => p.2)

/-- Embedding of `b2cAPI.updateAccessToken` (worker.go lines 51-85): given
the token currently stored in `B2COptions.accessToken` and the provider's
response, returns the stored token after the call together with whether the
call returned an error.  The assignment
`b2cAPI.B2COptions.accessToken = fmt.Sprint(resTo["access_token"])`
runs on every path that reaches it, with no check that the field exists. -/
def updateAccessToken (current : String) (res : TokenResponse) : String × Bool :=
  if res.transportErr then (current, true)
  else if res.statusCode != 200 then (current, true)
  else if !containsJson res.contentType then (current, true)
  else
    match res.body with
    | none => (current, true)
    | some kvs => (goSprintField (lookupField kvs "access_token"), false)

/-! ## Credential lifecycle manager: backoff (worker.go, updateAccessTokenWorker) -/

/-- Signed 64-bit wraparound, the behaviour of Go's `time.Duration`
(an `int64` of nanoseconds) under multiplication overflow. -/
def wrap64 (x : Int) : Int :=
  (x + 2 ^ 63) % 2 ^ 64 - 2 ^ 63

/-- `sleep = time.Second * 10` in nanoseconds. -/
def initialSleepNs : Int := 10 * 1000000000

/-- Outcome of one `updateToken()` call. -/
inductive RefreshEvent where
  | failure
  | success
  deriving Repr, DecidableEq

/-- Evolution of the `sleep` variable across one `updateToken()` call:
on failure the code doubles it (`sleep = sleep * 2`, an `int64`
multiplication); on success it resets it (`sleep = time.Second * 10`). -/
def stepSleep (s : Int) : RefreshEvent → Int
  | RefreshEvent.failure => wrap64 (s * 2)
  | RefreshEvent.success => initialSleepNs

/-- The value of `sleep` after `n` consecutive failures, starting from the
initial 10-second value.  On the `(n+1)`-st consecutive failure the code
calls `time.Sleep` with exactly `sleepAfterFailures n` and then doubles. -/
def sleepAfterFailures : Nat → Int
  | 0 => initialSleepNs
  | n + 1 => stepSleep (sleepAfterFailures n) RefreshEvent.failure

/-- The waits actually slept during `n` consecutive failures: the `k`-th
failure sleeps the pre-doubling value. -/
def failureWaits (n : Nat) : List Int :=
  (List.range n).map sleepAfterFailures

/-- Control locations of `updateAccessTokenWorker`'s loop.  `selecting` is
the `select` over `ctx.Done()` and `ticker.C`; `refreshing` is a running
`updateToken()` call; `backoffSleeping` is the `time.Sleep(sleep)` executed
inside `updateToken()` after a failure.  Go's `time.Sleep` is not
interruptible by context cancellation, so only `selecting` reacts to
`ctxDone`. -/
inductive WorkerPhase where
  | selecting
  | refreshing
  | backoffSleeping
  | stopped
  deriving Repr, DecidableEq

/-- Events the loop can experience. -/
inductive WorkerEvent where
  | ctxDone
  | tick
  | refreshOk
  | refreshFail
  | sleepElapsed
  deriving Repr, DecidableEq

/-- Transition relation of the worker loop, read off worker.go lines 24-48:
the shutdown signal is consulted only at the `select`; a refresh failure
enters the uninterruptible `time.Sleep`; events that a phase cannot react
to leave it in place. -/
def workerStep (ph : WorkerPhase) (ev : WorkerEvent) : WorkerPhase :=
  match ph, ev with
  | WorkerPhase.selecting, WorkerEvent.ctxDone => WorkerPhase.stopped
  | WorkerPhase.selecting, WorkerEvent.tick => WorkerPhase.refreshing
  | WorkerPhase.refreshing, WorkerEvent.refreshOk => WorkerPhase.selecting
  | WorkerPhase.refreshing, WorkerEvent.refreshFail => WorkerPhase.backoffSleeping
  | WorkerPhase.backoffSleeping, WorkerEvent.sleepElapsed => WorkerPhase.selecting
  | WorkerPhase.stopped, _ => WorkerPhase.stopped
  | ph, _ => ph

/-! ## Data model (model.go and the b2c.v1 proto) -/

/-- Go's `sql.NullString`: the string value together with its validity flag;
an invalid entry is stored as SQL NULL, a valid one as the (possibly empty)
string. -/
structure NullString where
  valid : Bool
  str : String
  deriving Repr, DecidableEq

/-- Go's `sql.NullTime`; the instant is modelled as a Unix timestamp. -/
structure NullTime where
  valid : Bool
  time : Int
  deriving Repr, DecidableEq

/-- The `CommandId` proto enumeration. -/
inductive CommandId where
  | unspecified
  | salaryPayment
  | businessPayment
  | promotionPayment
  deriving Repr, DecidableEq

/-- `CommandId.String()`: the proto enum value's name. -/
def CommandId.toName : CommandId → String
  | CommandId.unspecified => "COMMANDID_UNSPECIFIED"
  | CommandId.salaryPayment => "SALARY_PAYMENT"
  | CommandId.businessPayment => "BUSINESS_PAYMENT"
  | CommandId.promotionPayment => "PROMOTION_PAYMENT"

/-- `b2c.CommandId_value[s]`: proto generated name-to-number map; a string
absent from the map yields the zero value. -/
def commandIdValue (s : String) : Int :=
  if s == "COMMANDID_UNSPECIFIED" then 0
  else if s == "SALARY_PAYMENT" then 1
  else if s == "BUSINESS_PAYMENT" then 2
  else if s == "PROMOTION_PAYMENT" then 3
  else 0

/-- `b2c.B2CStatus_value[s]`, the status enumeration's name-to-number map. -/
def b2cStatusValue (s : String) : Int :=
  if s == "B2C_STATUS_UNKNOWN" then 0
  else if s == "B2C_REQUEST_FAILED" then 1
  else if s == "B2C_REQUEST_SUBMITED" then 2
  else if s == "B2C_SUCCESS" then 3
  else if s == "B2C_FAILED" then 4
  else 0

/-- The `Payment` gorm model (model.go lines 17-52).  Numeric funds fields
are `float32` in Go but only copied, never computed with, so rationals model
them; the ORM-managed audit timestamps `CreatedAt`/`UpdatedAt` and the
surrogate-key autoincrement are outside every claim and omitted beyond the
`id` field itself. -/
structure Payment where
  id : Nat
  initiatorID : String
  initiatorCustomerReference : String
  initiatorCustomerNames : String
  msisdn : String
  orgShortCode : String
  commandId : String
  transactionAmount : Rat
  conversationID : String
  originatorConversationID : String
  responseDescription : String
  responseCode : String
  resultCode : String
  resultDescription : String
  workingAccountFunds : Rat
  utilityAccountFunds : Rat
  mpesaCharges : Rat
  systemCharges : Rat
  recipientRegistered : Bool
  mpesaReceiptId : NullString
  receiverPublicName : String
  b2cStatus : String
  source : String
  tag : String
  succeeded : String
  processed : String
  transactionTime : NullTime
  deriving Repr, DecidableEq

/-- The public `B2CPayment` proto shape as filled by `PaymentProto`
(model.go lines 88-120).  `createDate` (an RFC3339 rendering of the
ORM-managed creation timestamp) is outside every claim and omitted. -/
structure B2CPaymentPb where
  transactionId : Nat
  initiatorId : String
  initiatorCustomerReference : String
  initiatorCustomerNames : String
  orgShortCode : String
  commandId : Int
  msisdn : String
  amount : Rat
  conversationId : String
  originalConversationId : String
  b2cResponseDescription : String
  b2cResponseCode : String
  b2cResultDescription : String
  b2cResultCode : String
  receiverPartyPublicName : String
  mpesaReceiptId : String
  workingAccountFunds : Rat
  utilityAccountFunds : Rat
  mpesaCharges : Rat
  systemCharges : Rat
  recipientRegistered : Bool
  b2cStatus : Int
  source : String
  tag : String
  succeeded : Bool
  processed : Bool
  transactionTimestamp : Int
  deriving Repr, DecidableEq

/-- Embedding of `PaymentProto` (model.go lines 88-120).  Note the Go code
reads `db.MpesaReceiptId.String` and `db.TransactionTime.Time` without
consulting the validity flags, and compares the stored enumeration strings
against the literal `"YES"`. -/
def PaymentProto (db : Payment) : B2CPaymentPb where
  transactionId := db.id
  initiatorId := db.initiatorID
  initiatorCustomerReference := db.initiatorCustomerReference
  initiatorCustomerNames := db.initiatorCustomerNames
  orgShortCode := db.orgShortCode
  commandId := commandIdValue db.commandId
  msisdn := db.msisdn
  amount := db.transactionAmount
  conversationId := db.conversationID
  originalConversationId := db.originatorConversationID
  b2cResponseDescription := db.responseDescription
  b2cResponseCode := db.responseCode
  b2cResultDescription := db.resultDescription
  b2cResultCode := db.resultCode
  receiverPartyPublicName := db.receiverPublicName
  mpesaReceiptId := db.mpesaReceiptId.str
  workingAccountFunds := db.workingAccountFunds
  utilityAccountFunds := db.utilityAccountFunds
  mpesaCharges := db.mpesaCharges
  systemCharges := db.systemCharges
  recipientRegistered := db.recipientRegistered
  b2cStatus := b2cStatusValue db.b2cStatus
  source := db.source
  tag := db.tag
  succeeded := db.succeeded == "YES"
  processed := db.processed == "YES"
  transactionTimestamp := db.transactionTime.time

/-! ## Inbound callback payload and correlation data -/

/-- The nested `Result` object of the provider callback. -/
structure TransactionResult where
  conversationID : String
  originatorConversationID : String
  resultCode : Int
  resultDesc : String
  deriving Repr, DecidableEq

/-- Modelled from the spec: the callback payload type `payload.Transaction`
(package pkg/payload, not under src/).  Per the spec's external-interface
section it carries nested result fields (conversation identifier,
originator conversation identifier, integer result code, result
description) plus result-parameter entries surfaced through named
accessors: transaction amount, receiver public name, transaction receipt,
recipient-registered flag, working/utility/charges-paid account available
funds, and the transaction-completion date-time (modelled as a Unix
instant).  Each accessor is modelled as the corresponding field. -/
structure Transaction where
  result : TransactionResult
  msisdn : String
  transactionAmount : Rat
  transactionReceipt : String
  receiverPartyPublicName : String
  recipientRegistered : Bool
  workingAccountFunds : Rat
  utilityAccountFunds : Rat
  chargesPaidFunds : Rat
  completedDateTime : Int
  deriving Repr, DecidableEq

/-- The publish policy carried inside a transfer request
(`PublishInfo` proto message; the string-keyed payload map plays no role
in the gateway). -/
structure PublishInfo where
  onlyOnSuccess : Bool
  channelName : String
  deriving Repr, DecidableEq

/-- The cached `TransferFundsRequest` proto message (the fields the gateway
reads).  `publishMessage` is a proto submessage pointer, hence optional. -/
structure TransferFundsRequest where
  initiatorId : String
  initiatorCustomerReference : String
  initiatorCustomerNames : String
  msisdn : String
  amount : Rat
  shortCode : String
  commandId : CommandId
  publish : Bool
  publishMessage : Option PublishInfo
  deriving Repr, DecidableEq

/-- The proto zero value, used when the Correlation Store misses or the
cached bytes fail to unmarshal: `&b2c_v1.TransferFundsRequest{}`. -/
def defaultTransferFundsRequest : TransferFundsRequest where
  initiatorId := ""
  initiatorCustomerReference := ""
  initiatorCustomerNames := ""
  msisdn := ""
  amount := 0
  shortCode := ""
  commandId := CommandId.unspecified
  publish := false
  publishMessage := none

/-- `GetPublishMessage()`: a nil proto pointer yields the zero message. -/
def getPublishMessage (req : TransferFundsRequest) : PublishInfo :=
  req.publishMessage.getD { onlyOnSuccess := false, channelName := "" }

/-! ## The inbound-callback handler `fromSaf` -/

/-- The request body as the handler's JSON decoder sees it. -/
inductive Body where
  | json (t : Transaction)
  | malformed
  deriving Repr, DecidableEq

/-- The parts of the HTTP request that `fromSaf` inspects. -/
structure HttpRequest where
  method : String
  contentType : String
  body : Body
  deriving Repr, DecidableEq

/-- The content-type switch of worker.go lines 703-712: only the three
lower-cased JSON spellings are accepted. -/
def jsonContentType (ct : String) : Bool :=
  let l := strLower ct
  l == "application/json" || l == "application/json;charset=utf-8" ||
    l == "application/json;charset=utf8"

/-- The validation switch of worker.go lines 715-724: any of the three
empty fields rejects the callback (the decoded payload pointer itself is
never nil). -/
def validationError (t : Transaction) : Bool :=
  t.result.conversationID == "" || t.result.originatorConversationID == "" ||
    t.result.resultDesc == ""

/-- `succeeded` after lines 697 and 729-732. -/
def deriveSucceeded (rc : Int) : String :=
  if rc != 0 then "NO" else "YES"

/-- `status` after lines 698 and 729-732 (`B2CStatus.String()` values). -/
def deriveStatus (rc : Int) : String :=
  if rc != 0 then "B2C_FAILED" else "B2C_SUCCESS"

/-- Result of the Record Store lookup `SQLDB.First` on the conversation
identifier. -/
inductive DbLookup where
  | found (p : Payment)
  | notFound
  | dbError
  deriving Repr, DecidableEq

/-- Result of the Record Store create `SQLDB.Create`: success, a
uniqueness-constraint violation (the concurrent-create race), or any other
persistence failure.  The Go code inspects only error nil-ness, so the last
two are handled identically by the handler. -/
inductive CreateOutcome where
  | ok
  | uniqueViolation
  | otherError
  deriving Repr, DecidableEq

/-- External-collaborator behaviour for one `fromSaf` invocation:
`correlation` is the combined result of the Correlation Store `Get` and the
proto unmarshal (`none` covers miss, unreachable cache, and unmarshal
failure alike — the code logs and continues with the zero request);
`updateOk` is whether `SQLDB.Updates` succeeds; `createOutcome` is the
result of `SQLDB.Create`. -/
structure Env where
  correlation : Option TransferFundsRequest
  dbLookup : DbLookup
  updateOk : Bool
  createOutcome : CreateOutcome
  deriving Repr, DecidableEq

/-- Observable side effects of one `fromSaf` invocation: whether the
Correlation Store was read, the record written by the update path, the
record written by the create path, and whether `PublishB2CPayment` was
invoked. -/
structure Effects where
  correlationRead : Bool
  dbUpdated : Option Payment
  dbCreated : Option Payment
  published : Bool
  deriving Repr, DecidableEq

/-- No side effects at all. -/
def Effects.empty : Effects where
  correlationRead := false
  dbUpdated := none
  dbCreated := none
  published := false

/-- The pair `(int, error)` returned by `fromSaf`, plus the side effects. -/
structure FromSafOut where
  code : Nat
  isErr : Bool
  effects : Effects
  deriving Repr, DecidableEq

/-- The gorm `Updates` map of worker.go lines 750-763, applied to the
record found by the lookup.  gorm's `AssignUpdateAttributes` callback also
writes the map values back into the in-memory model, so the resulting
record is the one later handed to `PaymentProto`.  Assigning a plain Go
string to the `sql.NullString` column scans it as a valid (non-NULL)
value, and `fmt.Sprint` of the integer result code is decimal rendering. -/
def applyUpdate (p : Payment) (t : Transaction) (status succeeded : String) : Payment :=
  { p with
    resultCode := toString t.result.resultCode
    resultDescription := t.result.resultDesc
    workingAccountFunds := t.workingAccountFunds
    utilityAccountFunds := t.utilityAccountFunds
    mpesaCharges := t.chargesPaidFunds
    recipientRegistered := t.recipientRegistered
    mpesaReceiptId := { valid := true, str := t.transactionReceipt }
    transactionTime := { valid := true, time := t.completedDateTime }
    receiverPublicName := t.receiverPartyPublicName
    b2cStatus := status
    succeeded := succeeded }

/-- The record built on the create path, worker.go lines 769-801. -/
def newPayment (req : TransferFundsRequest) (t : Transaction)
    (status succeeded : String) : Payment where
  id := 0
  initiatorID := req.initiatorId
  initiatorCustomerReference := req.initiatorCustomerReference
  initiatorCustomerNames := req.initiatorCustomerNames
  msisdn := t.msisdn
  orgShortCode := req.shortCode
  commandId := req.commandId.toName
  transactionAmount := t.transactionAmount
  conversationID := t.result.conversationID
  originatorConversationID := t.result.originatorConversationID
  responseDescription := ""
  responseCode := ""
  resultCode := toString t.result.resultCode
  resultDescription := t.result.resultDesc
  workingAccountFunds := t.workingAccountFunds
  utilityAccountFunds := t.utilityAccountFunds
  mpesaCharges := t.chargesPaidFunds
  systemCharges := 0
  recipientRegistered := t.recipientRegistered
  mpesaReceiptId := { valid := t.transactionReceipt != "", str := t.transactionReceipt }
  receiverPublicName := t.receiverPartyPublicName
  b2cStatus := status
  source := ""
  tag := ""
  succeeded := succeeded
  processed := "NO"
  transactionTime := { valid := true, time := t.completedDateTime }

/-- The tail of `fromSaf` after a successful Record Store write
(worker.go lines 811-850): translate the record, apply the notification
gate of lines 818-843, answer 200.  `PublishB2CPayment` failures are
logged and swallowed, so only the decision to invoke it is observable. -/
def finishB2C (req : TransferFundsRequest) (db : Payment) (eff : Effects) : FromSafOut :=
  let pb := PaymentProto db
  let doPublish : Bool :=
    if req.publish then
      if (getPublishMessage req).onlyOnSuccess then pb.succeeded else true
    else false
  { code := 200, isErr := false, effects := { eff with published := doPublish } }

/-- Embedding of the gateway handler `fromSaf` (worker.go lines 685-851). -/
def fromSaf (r : HttpRequest) (env : Env) : FromSafOut :=
  if r.method != "POST" then
    { code := 400, isErr := true, effects := Effects.empty }
  else if !jsonContentType r.contentType then
    { code := 400, isErr := true, effects := Effects.empty }
  else
    match r.body with
    | Body.malformed => { code := 400, isErr := true, effects := Effects.empty }
    | Body.json t =>
      if validationError t then
        { code := 400, isErr := true, effects := Effects.empty }
      else
        let succeeded := deriveSucceeded t.result.resultCode
        let status := deriveStatus t.result.resultCode
        let tranferReq := env.correlation.getD defaultTransferFundsRequest
        match env.dbLookup with
        | DbLookup.found p =>
          if env.updateOk then
            let p2 := applyUpdate p t status succeeded
            finishB2C tranferReq p2
              { Effects.empty with correlationRead := true, dbUpdated := some p2 }
          else
            { code := 500, isErr := true
              effects := { Effects.empty with correlationRead := true } }
        | DbLookup.notFound =>
          match env.createOutcome with
          | CreateOutcome.ok =>
            let p2 := newPayment tranferReq t status succeeded
            finishB2C tranferReq p2
              { Effects.empty with correlationRead := true, dbCreated := some p2 }
          | _ =>
            { code := 500, isErr := true
              effects := { Effects.empty with correlationRead := true } }
        | DbLookup.dbError =>
          { code := 500, isErr := true
            effects := { Effects.empty with correlationRead := true } }

/-- The record durably written by an invocation, whichever path wrote it. -/
def writtenRecord (eff : Effects) : Option Payment :=
  eff.dbUpdated.orElse (fun _ => eff.dbCreated)

/-! ## Sample concrete inputs, used to instantiate the claims -/

/-- A successful provider callback. -/
def sampleTx : Transaction where
  result :=
    { conversationID := "AG_20261010_0001"
      originatorConversationID := "29112-34801843-1"
      resultCode := 0
      resultDesc := "The service request is processed successfully." }
  msisdn := "254708374149"
  transactionAmount := 100
  transactionReceipt := "RCP12345"
  receiverPartyPublicName := "254708374149 - John Doe"
  recipientRegistered := true
  workingAccountFunds := 900
  utilityAccountFunds := 50
  chargesPaidFunds := 0
  completedDateTime := 1760000000

/-- The same callback with a failing result code. -/
def sampleTxFail : Transaction :=
  { sampleTx with result := { sampleTx.result with resultCode := 1 } }

/-- The same callback without a transaction receipt. -/
def sampleTxNoReceipt : Transaction :=
  { sampleTx with transactionReceipt := "" }

/-- A callback missing its conversation identifier. -/
def sampleTxBad : Transaction :=
  { sampleTx with result := { sampleTx.result with conversationID := "" } }

/-- A cached transfer request asking to publish only on success. -/
def samplePubReq : TransferFundsRequest where
  initiatorId := "init-01"
  initiatorCustomerReference := "ref-77"
  initiatorCustomerNames := "Jane Roe"
  msisdn := "254708374149"
  amount := 100
  shortCode := "600100"
  commandId := CommandId.businessPayment
  publish := true
  publishMessage := some { onlyOnSuccess := true, channelName := "b2c-chan" }

/-- An already-persisted record for the sample conversation identifier. -/
def samplePayment : Payment where
  id := 42
  initiatorID := "init-01"
  initiatorCustomerReference := "ref-77"
  initiatorCustomerNames := "Jane Roe"
  msisdn := "254708374149"
  orgShortCode := "600100"
  commandId := "BUSINESS_PAYMENT"
  transactionAmount := 100
  conversationID := "AG_20261010_0001"
  originatorConversationID := "29112-34801843-1"
  responseDescription := ""
  responseCode := ""
  resultCode := "0"
  resultDescription := "ok"
  workingAccountFunds := 800
  utilityAccountFunds := 40
  mpesaCharges := 0
  systemCharges := 0
  recipientRegistered := true
  mpesaReceiptId := { valid := true, str := "RCP00000" }
  receiverPublicName := "254708374149 - John Doe"
  b2cStatus := "B2C_SUCCESS"
  source := ""
  tag := ""
  succeeded := "YES"
  processed := "NO"
  transactionTime := { valid := true, time := 1750000000 }

/-- A POST request carrying the sample callback as JSON. -/
def sampleRequest : HttpRequest where
  method := "POST"
  contentType := "application/json"
  body := Body.json sampleTx

/-- Environment for the concurrent-create race: the lookup misses and the
create then fails with a uniqueness violation. -/
def raceEnv : Env where
  correlation := none
  dbLookup := DbLookup.notFound
  updateOk := true
  createOutcome := CreateOutcome.uniqueViolation
/-! ## Path lemmas for `fromSaf` -/

/-- A POST request with the given content type and body. -/
def postReq (ct : String) (b : Body) : HttpRequest :=
  { method := "POST", contentType := ct, body := b }

/-- Environment assembled from the four collaborator outcomes. -/
def mkEnv (c : Option TransferFundsRequest) (l : DbLookup) (u : Bool)
    (co : CreateOutcome) : Env :=
  { correlation := c, dbLookup := l, updateOk := u, createOutcome := co }

theorem fromSaf_update_eq (ct : String) (t : Transaction)
    (corr : Option TransferFundsRequest) (p : Payment) (co : CreateOutcome)
    (hct : jsonContentType ct = true) (hv : validationError t = false) :
    fromSaf (postReq ct (Body.json t)) (mkEnv corr (DbLookup.found p) true co) =
      finishB2C (corr.getD defaultTransferFundsRequest)
        (applyUpdate p t (deriveStatus t.result.resultCode)
          (deriveSucceeded t.result.resultCode))
        { Effects.empty with
            correlationRead := true,
            dbUpdated := some (applyUpdate p t (deriveStatus t.result.resultCode)
              (deriveSucceeded t.result.resultCode)) } := by
  simp [fromSaf, postReq, mkEnv, hct, hv]

theorem fromSaf_create_eq (ct : String) (t : Transaction)
    (corr : Option TransferFundsRequest) (u : Bool)
    (hct : jsonContentType ct = true) (hv : validationError t = false) :
    fromSaf (postReq ct (Body.json t)) (mkEnv corr DbLookup.notFound u CreateOutcome.ok) =
      finishB2C (corr.getD defaultTransferFundsRequest)
        (newPayment (corr.getD defaultTransferFundsRequest) t
          (deriveStatus t.result.resultCode) (deriveSucceeded t.result.resultCode))
        { Effects.empty with
            correlationRead := true,
            dbCreated := some (newPayment (corr.getD defaultTransferFundsRequest) t
              (deriveStatus t.result.resultCode) (deriveSucceeded t.result.resultCode)) } := by
  simp [fromSaf, postReq, mkEnv, hct, hv]

theorem finishB2C_effects (req : TransferFundsRequest) (db : Payment) (eff : Effects) :
    (finishB2C req db eff).code = 200 ∧ (finishB2C req db eff).isErr = false ∧
      (finishB2C req db eff).effects.correlationRead = eff.correlationRead ∧
      (finishB2C req db eff).effects.dbUpdated = eff.dbUpdated ∧
      (finishB2C req db eff).effects.dbCreated = eff.dbCreated :=
  ⟨rfl, rfl, rfl, rfl, rfl⟩

theorem finishB2C_published (req : TransferFundsRequest) (db : Payment) (eff : Effects) :
    (finishB2C req db eff).effects.published =
      (if req.publish then
        if (getPublishMessage req).onlyOnSuccess then (PaymentProto db).succeeded
        else true
      else false) := rfl

/-! ## Backoff arithmetic lemmas -/

theorem wrap64_eq_self (x : Int) (h1 : -(2 ^ 63) ≤ x) (h2 : x < 2 ^ 63) :
    wrap64 x = x := by
  unfold wrap64
  omega

theorem sleepAfterFailures_pow :
    ∀ n : Nat, n ≤ 29 → sleepAfterFailures n = 10000000000 * 2 ^ n := by
  intro n
  induction n with
  | zero => intro _; rfl
  | succ k ih =>
    intro hk
    have hk29 : k ≤ 28 := by omega
    have hrec := ih (by omega)
    have hpow : (2 : Int) ^ k ≤ 2 ^ 28 :=
      pow_le_pow_right₀ (by norm_num) hk29
    have hpos : (0 : Int) < 2 ^ k := by positivity
    show stepSleep (sleepAfterFailures k) RefreshEvent.failure = _
    rw [hrec]
    show wrap64 (10000000000 * 2 ^ k * 2) = _
    rw [wrap64_eq_self]
    · ring
    · nlinarith
    · nlinarith

/-! ## The claims -/

/-- C1: the spec requires a create that fails with a uniqueness violation
(the concurrent-create race) to be treated as "already exists" and retried
as an update, with no error surfaced.  The code has no such fallback: the
handler evaluated at a race environment (lookup missed, create hit the
uniqueness constraint) answers HTTP 500 with an error, attempts no update,
and writes nothing. -/
theorem c1_unique_violation_surfaced_as_error :
    fromSaf sampleRequest raceEnv =
      { code := 500, isErr := true,
        effects :=
          { correlationRead := true, dbUpdated := none, dbCreated := none,
            published := false } } := by
  decide

/-- C2: the spec counts a JSON body without the token field as a refresh
failure that leaves the stored token untouched.  Evaluating the code: a
200 `application/json` response whose body lacks `access_token` is treated
as a SUCCESSFUL refresh and overwrites the stored token with the literal
string `<nil>` (first conjunct), while a genuine failure path (non-200
status) does leave the token untouched (second conjunct). -/
theorem c2_missing_token_field_overwrites_token :
    updateAccessToken "stored-token"
        { transportErr := false, statusCode := 200,
          contentType := "application/json", body := some [] } =
      ("<nil>", false) ∧
    updateAccessToken "stored-token"
        { transportErr := false, statusCode := 404,
          contentType := "application/json",
          body := some [("access_token", "tok")] } =
      ("stored-token", true) := by
  decide

/-- C8: the spec requires the refresh loop to observe the shutdown signal
even while waiting out a backoff delay.  In the code the backoff wait is a
bare `time.Sleep` inside `updateToken`, not selectable against
`ctx.Done()`: in the backoff-sleeping phase the shutdown event is ignored
(first conjunct), whereas at the `select` it does stop the loop (second
conjunct). -/
theorem c8_backoff_sleep_ignores_shutdown :
    workerStep WorkerPhase.backoffSleeping WorkerEvent.ctxDone =
        WorkerPhase.backoffSleeping ∧
      workerStep WorkerPhase.selecting WorkerEvent.ctxDone =
        WorkerPhase.stopped := by
  decide

/-- C6 counterexample: the claim asserts the doubling is "bounded by an
implementation-chosen ceiling (capped)".  No ceiling exists in the code:
`sleep = sleep * 2` runs unguarded, so the backoff delay grows as
`10s * 2^n` until the `int64` nanosecond value overflows — after 30
consecutive failures the next delay is negative, which no capped
progression (positive, nondecreasing) can produce. -/
theorem c6_no_backoff_ceiling :
    ¬ ∃ cap : Int, ∀ n : Nat,
        0 < sleepAfterFailures n ∧ sleepAfterFailures n ≤ cap := by
  rintro ⟨cap, h⟩
  have h30 := (h 30).1
  have hneg : sleepAfterFailures 30 < 0 := by decide
  omega

/-- C6 (amended): consecutive refresh failures starting from the 10-second
base delay produce waits of 10, 20, 40 seconds (in nanoseconds), the
doubling continues unbounded — `10s * 2^n` for every `n` up to the point
of int64 overflow, with no ceiling applied — and any successful refresh
resets the delay to 10 seconds. -/
theorem c6_backoff_progression (n : Nat) (hn : n ≤ 29) (s : Int) :
    failureWaits 3 = [10000000000, 20000000000, 40000000000] ∧
      sleepAfterFailures n = 10000000000 * 2 ^ n ∧
      stepSleep s RefreshEvent.success = initialSleepNs := by
  refine ⟨by decide, sleepAfterFailures_pow n hn, rfl⟩

/-- C6 witness: the amended statement instantiated at the fourth failure
and an arbitrary in-flight delay value. -/
theorem c6_backoff_progression_witness :
    failureWaits 3 = [10000000000, 20000000000, 40000000000] ∧
      sleepAfterFailures 3 = 10000000000 * 2 ^ 3 ∧
      stepSleep 40000000000 RefreshEvent.success = initialSleepNs :=
  c6_backoff_progression 3 (by decide) 40000000000

/-- C3: for every valid inbound callback, a zero result code yields
tri-state outcome `"YES"` and status `B2C_SUCCESS` in the persisted
record, and a nonzero result code yields `"NO"` and `B2C_FAILED`, on the
update path (first two conjuncts) and on the create path (last two). -/
theorem c3_outcome_derivation (ct : String) (t : Transaction)
    (corr : Option TransferFundsRequest) (p : Payment) (u : Bool) (co : CreateOutcome)
    (hct : jsonContentType ct = true) (hv : validationError t = false) :
    ((fromSaf (postReq ct (Body.json t))
        (mkEnv corr (DbLookup.found p) true co)).effects.dbUpdated.map
        Payment.succeeded =
      some (if t.result.resultCode = 0 then "YES" else "NO")) ∧
    ((fromSaf (postReq ct (Body.json t))
        (mkEnv corr (DbLookup.found p) true co)).effects.dbUpdated.map
        Payment.b2cStatus =
      some (if t.result.resultCode = 0 then "B2C_SUCCESS" else "B2C_FAILED")) ∧
    ((fromSaf (postReq ct (Body.json t))
        (mkEnv corr DbLookup.notFound u CreateOutcome.ok)).effects.dbCreated.map
        Payment.succeeded =
      some (if t.result.resultCode = 0 then "YES" else "NO")) ∧
    ((fromSaf (postReq ct (Body.json t))
        (mkEnv corr DbLookup.notFound u CreateOutcome.ok)).effects.dbCreated.map
        Payment.b2cStatus =
      some (if t.result.resultCode = 0 then "B2C_SUCCESS" else "B2C_FAILED")) := by
  rw [fromSaf_update_eq ct t corr p co hct hv, fromSaf_create_eq ct t corr u hct hv]
  refine ⟨?_, ?_, ?_, ?_⟩ <;>
    by_cases h : t.result.resultCode = 0 <;>
      simp [finishB2C, applyUpdate, newPayment, deriveSucceeded, deriveStatus, h]

/-- C3 witness: the sample succeeding callback against a matched record
and against a fresh conversation identifier. -/
theorem c3_outcome_derivation_witness :
    ((fromSaf (postReq "application/json" (Body.json sampleTx))
        (mkEnv (some samplePubReq) (DbLookup.found samplePayment) true
          CreateOutcome.ok)).effects.dbUpdated.map Payment.succeeded =
      some (if sampleTx.result.resultCode = 0 then "YES" else "NO")) ∧
    ((fromSaf (postReq "application/json" (Body.json sampleTx))
        (mkEnv (some samplePubReq) (DbLookup.found samplePayment) true
          CreateOutcome.ok)).effects.dbUpdated.map Payment.b2cStatus =
      some (if sampleTx.result.resultCode = 0 then "B2C_SUCCESS" else "B2C_FAILED")) ∧
    ((fromSaf (postReq "application/json" (Body.json sampleTx))
        (mkEnv (some samplePubReq) DbLookup.notFound true
          CreateOutcome.ok)).effects.dbCreated.map Payment.succeeded =
      some (if sampleTx.result.resultCode = 0 then "YES" else "NO")) ∧
    ((fromSaf (postReq "application/json" (Body.json sampleTx))
        (mkEnv (some samplePubReq) DbLookup.notFound true
          CreateOutcome.ok)).effects.dbCreated.map Payment.b2cStatus =
      some (if sampleTx.result.resultCode = 0 then "B2C_SUCCESS" else "B2C_FAILED")) :=
  c3_outcome_derivation "application/json" sampleTx (some samplePubReq) samplePayment
    true CreateOutcome.ok (by decide) (by decide)

/-- C4: on the update path the written record is exactly the found record
with only the outcome-bearing fields replaced (result code/description,
the three balances, receipt id, registration flag, recipient name, status,
tri-state outcome, completion timestamp); every identity field set at
creation — initiator identity, org short code, command classification,
amount, conversation identifiers, destination — is carried over from the
existing record `p` unchanged. -/
theorem c4_update_frame (ct : String) (t : Transaction)
    (corr : Option TransferFundsRequest) (p : Payment) (co : CreateOutcome)
    (hct : jsonContentType ct = true) (hv : validationError t = false) :
    (fromSaf (postReq ct (Body.json t))
        (mkEnv corr (DbLookup.found p) true co)).effects.dbUpdated =
      some { p with
        resultCode := toString t.result.resultCode,
        resultDescription := t.result.resultDesc,
        workingAccountFunds := t.workingAccountFunds,
        utilityAccountFunds := t.utilityAccountFunds,
        mpesaCharges := t.chargesPaidFunds,
        recipientRegistered := t.recipientRegistered,
        mpesaReceiptId := { valid := true, str := t.transactionReceipt },
        transactionTime := { valid := true, time := t.completedDateTime },
        receiverPublicName := t.receiverPartyPublicName,
        b2cStatus := deriveStatus t.result.resultCode,
        succeeded := deriveSucceeded t.result.resultCode } := by
  rw [fromSaf_update_eq ct t corr p co hct hv]
  rfl

/-- C4 witness: a second, failing callback for the already-resolved sample
record rewrites outcome fields only. -/
theorem c4_update_frame_witness :
    (fromSaf (postReq "application/json" (Body.json sampleTxFail))
        (mkEnv (some samplePubReq) (DbLookup.found samplePayment) true
          CreateOutcome.ok)).effects.dbUpdated =
      some { samplePayment with
        resultCode := toString sampleTxFail.result.resultCode,
        resultDescription := sampleTxFail.result.resultDesc,
        workingAccountFunds := sampleTxFail.workingAccountFunds,
        utilityAccountFunds := sampleTxFail.utilityAccountFunds,
        mpesaCharges := sampleTxFail.chargesPaidFunds,
        recipientRegistered := sampleTxFail.recipientRegistered,
        mpesaReceiptId := { valid := true, str := sampleTxFail.transactionReceipt },
        transactionTime := { valid := true, time := sampleTxFail.completedDateTime },
        receiverPublicName := sampleTxFail.receiverPartyPublicName,
        b2cStatus := deriveStatus sampleTxFail.result.resultCode,
        succeeded := deriveSucceeded sampleTxFail.result.resultCode } :=
  c4_update_frame "application/json" sampleTxFail (some samplePubReq) samplePayment
    CreateOutcome.ok (by decide) (by decide)

/-- C5: a callback with a non-JSON content type, an unparsable body, or an
empty conversation identifier, originator conversation identifier, or
result description is answered with a 400 error, and no state is touched:
no Correlation Store read, no Record Store write, no publish. -/
theorem c5_reject_no_side_effects (r : HttpRequest) (env : Env)
    (h : jsonContentType r.contentType = false ∨ r.body = Body.malformed ∨
      ∃ t, r.body = Body.json t ∧ validationError t = true) :
    fromSaf r env = { code := 400, isErr := true, effects := Effects.empty } := by
  unfold fromSaf
  rcases h with h | h | ⟨t, hb, hv⟩
  · simp [h]
  · rw [h]; simp
  · rw [hb]; simp [hv]

/-- C5 witness: a callback missing its conversation identifier is rejected
without side effects even with a race-prone environment behind it. -/
theorem c5_reject_no_side_effects_witness :
    fromSaf (postReq "application/json" (Body.json sampleTxBad)) raceEnv =
      { code := 400, isErr := true, effects := Effects.empty } :=
  c5_reject_no_side_effects _ _ (Or.inr (Or.inr ⟨sampleTxBad, rfl, by decide⟩))

/-- C7: for a reconciled callback with correlation data present,
`publish = false` never emits; `publish = true` with
`onlyOnSuccess = false` always emits; `publish = true` with
`onlyOnSuccess = true` emits exactly when the written record's tri-state
outcome is `"YES"`. -/
theorem c7_publish_gate (ct : String) (t : Transaction) (req : TransferFundsRequest)
    (env : Env) (hct : jsonContentType ct = true) (hv : validationError t = false)
    (hcorr : env.correlation = some req)
    (hw : (∃ p, env.dbLookup = DbLookup.found p ∧ env.updateOk = true) ∨
      (env.dbLookup = DbLookup.notFound ∧ env.createOutcome = CreateOutcome.ok)) :
    (req.publish = false →
      (fromSaf (postReq ct (Body.json t)) env).effects.published = false) ∧
    (req.publish = true → (getPublishMessage req).onlyOnSuccess = false →
      (fromSaf (postReq ct (Body.json t)) env).effects.published = true) ∧
    (req.publish = true → (getPublishMessage req).onlyOnSuccess = true →
      ((fromSaf (postReq ct (Body.json t)) env).effects.published = true ↔
        (writtenRecord (fromSaf (postReq ct (Body.json t)) env).effects).map
          Payment.succeeded = some "YES")) := by
  obtain ⟨corrF, look, upd, cr⟩ := env
  simp only at hcorr
  subst hcorr
  rcases hw with ⟨p, hl, hu⟩ | ⟨hl, hc⟩ <;> simp only at *
  · subst hl; subst hu
    rw [show (Env.mk (some req) (DbLookup.found p) true cr) =
        mkEnv (some req) (DbLookup.found p) true cr from rfl,
      fromSaf_update_eq ct t (some req) p cr hct hv]
    refine ⟨fun hp => ?_, fun hp hs => ?_, fun hp hs => ?_⟩
    · simp [finishB2C, hp]
    · simp [finishB2C, hp, hs]
    · simp [finishB2C, writtenRecord, PaymentProto, Effects.empty, Option.orElse,
        hp, hs]
  · subst hl; subst hc
    rw [show (Env.mk (some req) DbLookup.notFound upd CreateOutcome.ok) =
        mkEnv (some req) DbLookup.notFound upd CreateOutcome.ok from rfl,
      fromSaf_create_eq ct t (some req) upd hct hv]
    refine ⟨fun hp => ?_, fun hp hs => ?_, fun hp hs => ?_⟩
    · simp [finishB2C, hp]
    · simp [finishB2C, hp, hs]
    · simp [finishB2C, writtenRecord, PaymentProto, Effects.empty, Option.orElse,
        hp, hs]

/-- C7 witness: a publish-on-success request with a succeeding callback
against a matched record. -/
theorem c7_publish_gate_witness :
    (samplePubReq.publish = false →
      (fromSaf (postReq "application/json" (Body.json sampleTx))
        (mkEnv (some samplePubReq) (DbLookup.found samplePayment) true
          CreateOutcome.ok)).effects.published = false) ∧
    (samplePubReq.publish = true →
      (getPublishMessage samplePubReq).onlyOnSuccess = false →
      (fromSaf (postReq "application/json" (Body.json sampleTx))
        (mkEnv (some samplePubReq) (DbLookup.found samplePayment) true
          CreateOutcome.ok)).effects.published = true) ∧
    (samplePubReq.publish = true →
      (getPublishMessage samplePubReq).onlyOnSuccess = true →
      ((fromSaf (postReq "application/json" (Body.json sampleTx))
          (mkEnv (some samplePubReq) (DbLookup.found samplePayment) true
            CreateOutcome.ok)).effects.published = true ↔
        (writtenRecord (fromSaf (postReq "application/json" (Body.json sampleTx))
            (mkEnv (some samplePubReq) (DbLookup.found samplePayment) true
              CreateOutcome.ok)).effects).map Payment.succeeded = some "YES")) :=
  c7_publish_gate "application/json" sampleTx samplePubReq
    (mkEnv (some samplePubReq) (DbLookup.found samplePayment) true CreateOutcome.ok)
    (by decide) (by decide) rfl (Or.inl ⟨samplePayment, rfl, rfl⟩)

/-- C9: receipt nullability differs by path.  Create path: a callback with
an empty transaction receipt stores an invalid (SQL NULL) receipt
identifier.  Update path: the receipt column is overwritten with the raw
receipt string unconditionally, as a valid (non-NULL) value — so an empty
receipt sets the existing record's receipt to the empty string rather
than leaving it NULL. -/
theorem c9_receipt_nullability (ct : String) (t t2 : Transaction)
    (corr : Option TransferFundsRequest) (p : Payment) (u : Bool) (co : CreateOutcome)
    (hct : jsonContentType ct = true) (hv : validationError t = false)
    (hv2 : validationError t2 = false) (hr : t.transactionReceipt = "") :
    ((fromSaf (postReq ct (Body.json t))
        (mkEnv corr DbLookup.notFound u CreateOutcome.ok)).effects.dbCreated.map
        (fun q => q.mpesaReceiptId) = some { valid := false, str := "" }) ∧
    ((fromSaf (postReq ct (Body.json t2))
        (mkEnv corr (DbLookup.found p) true co)).effects.dbUpdated.map
        (fun q => q.mpesaReceiptId) =
      some { valid := true, str := t2.transactionReceipt }) := by
  constructor
  · rw [fromSaf_create_eq ct t corr u hct hv]
    simp [finishB2C, newPayment, hr]
  · rw [fromSaf_update_eq ct t2 corr p co hct hv2]
    simp [finishB2C, applyUpdate]

/-- C9 witness: the receiptless sample callback on both paths. -/
theorem c9_receipt_nullability_witness :
    ((fromSaf (postReq "application/json" (Body.json sampleTxNoReceipt))
        (mkEnv (some samplePubReq) DbLookup.notFound true
          CreateOutcome.ok)).effects.dbCreated.map
        (fun q => q.mpesaReceiptId) = some { valid := false, str := "" }) ∧
    ((fromSaf (postReq "application/json" (Body.json sampleTxNoReceipt))
        (mkEnv (some samplePubReq) (DbLookup.found samplePayment) true
          CreateOutcome.ok)).effects.dbUpdated.map
        (fun q => q.mpesaReceiptId) =
      some { valid := true, str := sampleTxNoReceipt.transactionReceipt }) :=
  c9_receipt_nullability "application/json" sampleTxNoReceipt sampleTxNoReceipt
    (some samplePubReq) samplePayment true CreateOutcome.ok
    (by decide) (by decide) (by decide) rfl

/-- C10: `PaymentProto` maps the stored tri-state outcome string to a
boolean that is true exactly when the stored value is `"YES"` (so `"NO"`
and `"UNKNOWN"` both map to false), and likewise for the processed flag. -/
theorem c10_proto_boolean_mapping (db : Payment) :
    ((PaymentProto db).succeeded = true ↔ db.succeeded = "YES") ∧
      ((PaymentProto db).processed = true ↔ db.processed = "YES") := by
  constructor <;> simp [PaymentProto]

end MpesaB2C
